import Mathlib

/-!
Verification of the Collaboration Graph Engine of the AcademiaMap
(robotics-academia-network) repository.

The repository ships the frontend type declarations
(`frontend/src/types/index.ts`: `Researcher`, `GraphEdge`, `GraphData`,
`FilterState`, `SearchProgress`, `RegionColors`) and documentation; the
engine itself (metric normalizer, relationship classifier, graph
assembler, job orchestrator) is described by the specification.  The
data model below follows the TypeScript declarations; the operations are
modelled from the specification where the backend code is absent, each
such definition carrying a `Modelled from the spec:` doc comment.
-/

namespace AcademiaMap

/-- Direction label of a classified collaboration edge, mirroring the
TypeScript union `'mentor_to_student' | 'student_to_mentor' | 'peer'` of
`GraphEdge.direction` (`types/index.ts`, lines 41–47). -/
inductive Direction where
  | mentor_to_student : Direction
  | student_to_mentor : Direction
  | peer : Direction
deriving DecidableEq, Repr

/-- Researcher profile, mirroring the fields of the TypeScript
`Researcher` / `GraphNode` interfaces that the engine reads: numeric id,
resolved region, the three citation metrics (non-negative integers),
the precomputed rank score, and the research-category tags. -/
structure Researcher where
  id : Nat
  region : String
  citations : Nat
  h_index : Nat
  i10_index : Nat
  rank_score : ℚ
  research_categories : List String
deriving DecidableEq, Repr

/-- Raw collaboration edge, mirroring the spec's `CollaborationEdge`:
unordered pair of researcher ids (stored as `a`, `b`), shared-publication
count, earliest/latest shared-publication year, and co-authorship position
evidence (how often each side was first author, and how often each side
was senior/last author, over the shared publications). -/
structure CollaborationEdge where
  a : Nat
  b : Nat
  shared_count : Nat
  earliest_year : Nat
  latest_year : Nat
  first_author_a : Nat
  first_author_b : Nat
  last_author_a : Nat
  last_author_b : Nat
deriving DecidableEq, Repr

/-- Classified edge, mirroring the TypeScript `GraphEdge` interface:
source / target researcher ids, strength in `[0,1]`, direction label and
shared-publication count. -/
structure ClassifiedEdge where
  source : Nat
  target : Nat
  strength : ℚ
  direction : Direction
  co_publications : Nat
deriving DecidableEq, Repr

/-- Recognized engine configuration, mirroring the spec's §6 option bag:
citation-gap threshold (default 5), strength saturation (default 10). -/
structure EngineConfig where
  citation_gap_threshold : ℚ
  strength_saturation : Nat
deriving DecidableEq, Repr

/-- Default engine configuration from the spec (§6): gap threshold `5.0`,
strength saturation `10`. -/
def defaultConfig : EngineConfig := ⟨5, 10⟩

/-- Rank weights `(w1, w2, w3)` of the metric normalizer (§6
configuration, §4.1 formula). -/
structure RankWeights where
  w1 : ℝ
  w2 : ℝ
  w3 : ℝ

/-- Modelled from the spec: default rank weights.  The backend metric
normalizer is absent from the sources; §4.1 only fixes the shape
"weights configurable (default emphasizes citations)", so the default
puts the largest weight on the citation term. -/
def rankWeightsDefault : RankWeights := ⟨2, 1, 1⟩

/-- Modelled from the spec: the metric normalizer
`rank(citations, h_index, i10_index)` of §4.1, absent from the sources.
Weighted sum on a log-compressed scale,
`w1*log(1+citations) + w2*h_index + w3*i10_index`, the `log(1+·)` form
guarding `log 0`. -/
noncomputable def rank (w : RankWeights) (citations h_index i10_index : Nat) : ℝ :=
  w.w1 * Real.log (1 + (citations : ℝ)) + w.w2 * (h_index : ℝ) + w.w3 * (i10_index : ℝ)

/-- Citation-gap signal of the classifier (§4.3, rule 1), in favour of the
first profile: its citation count exceeds the other's by more than the
multiplicative threshold, and its rank score is higher. -/
def citationGap (cfg : EngineConfig) (p q : Researcher) : Prop :=
  (p.citations : ℚ) > cfg.citation_gap_threshold * (q.citations : ℚ) ∧
    p.rank_score > q.rank_score

instance (cfg : EngineConfig) (p q : Researcher) : Decidable (citationGap cfg p q) := by
  unfold citationGap; infer_instance

/-- Authorship-position signal of the classifier (§4.3, rule 2), naming
the student side: that side is first author in a strict majority (>60%)
of the shared publications and the other side is senior/last author in a
majority (>50%) of them. -/
def authorshipSignal (firstStudent lastMentor shared : Nat) : Prop :=
  5 * firstStudent > 3 * shared ∧ 2 * lastMentor > shared

instance (f l n : Nat) : Decidable (authorshipSignal f l n) := by
  unfold authorshipSignal; infer_instance

/-- Strength score of a classified edge (§4.3):
`min(1, shared_count / strength_saturation)`. -/
def strengthScore (cfg : EngineConfig) (shared : Nat) : ℚ :=
  min 1 ((shared : ℚ) / (cfg.strength_saturation : ℚ))

/-- Modelled from the spec: the relationship classifier
`classify(edge, profileA, profileB)` of §4.3, absent from the sources.
Priority order: citation-gap signal for either side first, then the
authorship-position signal for either side, else `peer`.  The edge
direction is recorded from the perspective of `source = edge.a`,
`target = edge.b`: `mentor_to_student` means `a` is the mentor.  The
strength is `min(1, shared_count / strength_saturation)`, independent of
the direction outcome. -/
def classify (cfg : EngineConfig) (e : CollaborationEdge) (pA pB : Researcher) :
    ClassifiedEdge :=
  { source := e.a
    target := e.b
    strength := strengthScore cfg e.shared_count
    direction :=
      if citationGap cfg pA pB then Direction.mentor_to_student
      else if citationGap cfg pB pA then Direction.student_to_mentor
      else if authorshipSignal e.first_author_a e.last_author_b e.shared_count then
        Direction.student_to_mentor
      else if authorshipSignal e.first_author_b e.last_author_a e.shared_count then
        Direction.mentor_to_student
      else Direction.peer
    co_publications := e.shared_count }

/-- C1: for all non-negative integer inputs and non-negative weights, the
rank score is non-negative, monotone non-decreasing in each of its three
arguments, and `rank(0,0,0) = 0` (in particular it is a well-defined real
number, never negative). -/
theorem rank_nonneg_monotone_zero (w : RankWeights)
    (hw1 : 0 ≤ w.w1) (hw2 : 0 ≤ w.w2) (hw3 : 0 ≤ w.w3) :
    (∀ c h i, 0 ≤ rank w c h i) ∧
    (∀ c c' h i, c ≤ c' → rank w c h i ≤ rank w c' h i) ∧
    (∀ c h h' i, h ≤ h' → rank w c h i ≤ rank w c h' i) ∧
    (∀ c h i i', i ≤ i' → rank w c h i ≤ rank w c h i') ∧
    rank w 0 0 0 = 0 := by
  have hlog : ∀ c : Nat, 0 ≤ Real.log (1 + (c : ℝ)) := by
    intro c
    exact Real.log_nonneg (le_add_of_nonneg_right (Nat.cast_nonneg c))
  refine ⟨?_, ?_, ?_, ?_, ?_⟩
  · intro c h i
    unfold rank
    have h1 : 0 ≤ w.w1 * Real.log (1 + (c : ℝ)) := mul_nonneg hw1 (hlog c)
    have h2 : 0 ≤ w.w2 * (h : ℝ) := mul_nonneg hw2 (Nat.cast_nonneg h)
    have h3 : 0 ≤ w.w3 * (i : ℝ) := mul_nonneg hw3 (Nat.cast_nonneg i)
    linarith
  · intro c c' h i hcc
    unfold rank
    have hcast : (c : ℝ) ≤ (c' : ℝ) := Nat.cast_le.mpr hcc
    have hxy : (1 : ℝ) + (c : ℝ) ≤ 1 + (c' : ℝ) := by linarith
    have hpos : (0 : ℝ) < 1 + (c : ℝ) := by positivity
    have hle : Real.log (1 + (c : ℝ)) ≤ Real.log (1 + (c' : ℝ)) :=
      Real.log_le_log hpos hxy
    have := mul_le_mul_of_nonneg_left hle hw1
    linarith
  · intro c h h' i hhh
    unfold rank
    have : (h : ℝ) ≤ (h' : ℝ) := Nat.cast_le.mpr hhh
    have := mul_le_mul_of_nonneg_left this hw2
    linarith
  · intro c h i i' hii
    unfold rank
    have : (i : ℝ) ≤ (i' : ℝ) := Nat.cast_le.mpr hii
    have := mul_le_mul_of_nonneg_left this hw3
    linarith
  · unfold rank
    simp [Real.log_one]

/-- Witness for C1 at the default weights and concrete inputs. -/
theorem rank_nonneg_monotone_zero_witness :
    (0 : ℝ) ≤ rankWeightsDefault.w1 ∧ (0 : ℝ) ≤ rankWeightsDefault.w2 ∧
    (0 : ℝ) ≤ rankWeightsDefault.w3 ∧
    (0 ≤ rank rankWeightsDefault 3 2 1 ∧ rank rankWeightsDefault 0 0 0 = 0) :=
  have h1 : (0 : ℝ) ≤ rankWeightsDefault.w1 := zero_le_two
  have h2 : (0 : ℝ) ≤ rankWeightsDefault.w2 := zero_le_one
  have h3 : (0 : ℝ) ≤ rankWeightsDefault.w3 := zero_le_one
  have main := rank_nonneg_monotone_zero rankWeightsDefault h1 h2 h3
  ⟨h1, h2, h3, main.1 3 2 1, main.2.2.2.2⟩

/-- C2: classification is total on directions — for every engine
configuration, collaboration edge and pair of profiles, the classified
edge's direction is exactly one of the three labels; ambiguity resolves
to the `peer` label, never to an error. -/
theorem classify_total (cfg : EngineConfig) (e : CollaborationEdge)
    (pA pB : Researcher) :
    (classify cfg e pA pB).direction = Direction.mentor_to_student ∨
    (classify cfg e pA pB).direction = Direction.student_to_mentor ∨
    (classify cfg e pA pB).direction = Direction.peer := by
  cases hd : (classify cfg e pA pB).direction
  · exact Or.inl rfl
  · exact Or.inr (Or.inl rfl)
  · exact Or.inr (Or.inr rfl)

/-- C3: the classifier applies the direction signals in priority order,
first decisive signal winning.  A citation gap in favour of `pA` (the
edge's source side) yields `mentor_to_student`; failing that, a gap in
favour of `pB` yields `student_to_mentor` (mentor is the target); failing
both, a first-author majority for one side with a last-author majority
for the other makes the first-author-majority side the student; with no
decisive signal the edge is `peer`. -/
theorem classify_priority_order (cfg : EngineConfig) (e : CollaborationEdge)
    (pA pB : Researcher) :
    (citationGap cfg pA pB →
      (classify cfg e pA pB).direction = Direction.mentor_to_student) ∧
    (¬ citationGap cfg pA pB → citationGap cfg pB pA →
      (classify cfg e pA pB).direction = Direction.student_to_mentor) ∧
    (¬ citationGap cfg pA pB → ¬ citationGap cfg pB pA →
      authorshipSignal e.first_author_a e.last_author_b e.shared_count →
      (classify cfg e pA pB).direction = Direction.student_to_mentor) ∧
    (¬ citationGap cfg pA pB → ¬ citationGap cfg pB pA →
      ¬ authorshipSignal e.first_author_a e.last_author_b e.shared_count →
      authorshipSignal e.first_author_b e.last_author_a e.shared_count →
      (classify cfg e pA pB).direction = Direction.mentor_to_student) ∧
    (¬ citationGap cfg pA pB → ¬ citationGap cfg pB pA →
      ¬ authorshipSignal e.first_author_a e.last_author_b e.shared_count →
      ¬ authorshipSignal e.first_author_b e.last_author_a e.shared_count →
      (classify cfg e pA pB).direction = Direction.peer) := by
  refine ⟨?_, ?_, ?_, ?_, ?_⟩
  · intro h1
    simp [classify, h1]
  · intro h1 h2
    simp [classify, h1, h2]
  · intro h1 h2 h3
    simp [classify, h1, h2, h3]
  · intro h1 h2 h3 h4
    simp [classify, h1, h2, h3, h4]
  · intro h1 h2 h3 h4
    simp [classify, h1, h2, h3, h4]

/-- Researcher X of spec Scenario A: 20000 citations, the higher rank. -/
def scenarioX : Researcher := ⟨1, "North America", 20000, 50, 80, 90, ["slam"]⟩

/-- Researcher Y of spec Scenario A: 500 citations, the lower rank. -/
def scenarioY : Researcher := ⟨2, "Europe", 500, 10, 12, 10, ["slam"]⟩

/-- Edge of spec Scenario A: 3 shared publications. -/
def scenarioEdge : CollaborationEdge := ⟨1, 2, 3, 2015, 2019, 1, 2, 1, 1⟩

/-- Witness for C3 at spec Scenario A: a 40× citation gap with higher rank
classifies the edge `mentor_to_student` from X. -/
theorem classify_priority_order_witness :
    citationGap defaultConfig scenarioX scenarioY ∧
    (classify defaultConfig scenarioEdge scenarioX scenarioY).direction =
      Direction.mentor_to_student :=
  have hgap : citationGap defaultConfig scenarioX scenarioY := by
    constructor
    · show (20000 : ℚ) > 5 * (500 : ℚ)
      norm_num
    · show (90 : ℚ) > 10
      norm_num
  ⟨hgap, (classify_priority_order defaultConfig scenarioEdge scenarioX scenarioY).1 hgap⟩

/-- C4: the strength of every classified edge equals
`min(1, shared_count / strength_saturation)`, always lies in `[0,1]`, is
independent of the profiles (hence of the assigned direction), and with
the default saturation 10 an edge with 3 shared publications has strength
exactly `3/10`. -/
theorem classify_strength_bounds (cfg : EngineConfig) (e : CollaborationEdge)
    (pA pB : Researcher) :
    (classify cfg e pA pB).strength =
      min 1 ((e.shared_count : ℚ) / (cfg.strength_saturation : ℚ)) ∧
    0 ≤ (classify cfg e pA pB).strength ∧
    (classify cfg e pA pB).strength ≤ 1 ∧
    (∀ pA' pB', (classify cfg e pA' pB').strength = (classify cfg e pA pB).strength) ∧
    (cfg = defaultConfig → e.shared_count = 3 →
      (classify cfg e pA pB).strength = 3 / 10) := by
  have hs : (classify cfg e pA pB).strength =
      min 1 ((e.shared_count : ℚ) / (cfg.strength_saturation : ℚ)) := rfl
  refine ⟨hs, ?_, ?_, ?_, ?_⟩
  · rw [hs]
    have : (0 : ℚ) ≤ (e.shared_count : ℚ) / (cfg.strength_saturation : ℚ) :=
      div_nonneg (Nat.cast_nonneg _) (Nat.cast_nonneg _)
    exact le_min zero_le_one this
  · rw [hs]
    exact min_le_left _ _
  · intro pA' pB'
    rfl
  · intro hcfg hshared
    rw [hs, hcfg, hshared]
    norm_num [defaultConfig]

/-- Witness for C4 at spec Scenario A: 3 shared publications under the
default configuration give strength `3/10 = 0.3`. -/
theorem classify_strength_bounds_witness :
    defaultConfig = defaultConfig ∧ scenarioEdge.shared_count = 3 ∧
    (classify defaultConfig scenarioEdge scenarioX scenarioY).strength = 3 / 10 :=
  ⟨rfl, rfl,
    (classify_strength_bounds defaultConfig scenarioEdge scenarioX scenarioY).2.2.2.2
      rfl rfl⟩

/-- Active filter, mirroring the TypeScript `FilterState` interface
(`types/index.ts`, lines 59–64): category list, region list, citation
floor and node cap. -/
structure FilterState where
  categories : List String
  regions : List String
  minCitations : Nat
  maxNodes : Nat
deriving DecidableEq, Repr

/-- Modelled from the spec: the assembler's filter predicate (§4.4),
absent from the sources.  A researcher passes when it matches the
category constraint (an empty category list constrains nothing, as in
the frontend's default `FilterState`), the region constraint (likewise),
and the citation floor. -/
def passesFilter (f : FilterState) (r : Researcher) : Bool :=
  (f.categories.isEmpty || f.categories.any fun c => r.research_categories.contains c) &&
  (f.regions.isEmpty || f.regions.contains r.region) &&
  decide (f.minCitations ≤ r.citations)

/-- Selection order of the assembler's node cap (§4.4): descending rank
score, ties broken by the lower numeric id. -/
def rankOrder (p q : Researcher) : Prop :=
  q.rank_score < p.rank_score ∨ (p.rank_score = q.rank_score ∧ p.id ≤ q.id)

instance : DecidableRel rankOrder := fun p q => by
  unfold rankOrder; infer_instance

instance rankOrder_total : IsTotal Researcher rankOrder where
  total p q := by
    unfold rankOrder
    rcases lt_trichotomy p.rank_score q.rank_score with h | h | h
    · exact Or.inr (Or.inl h)
    · rcases Nat.le_total p.id q.id with hid | hid
      · exact Or.inl (Or.inr ⟨h, hid⟩)
      · exact Or.inr (Or.inr ⟨h.symm, hid⟩)
    · exact Or.inl (Or.inl h)

instance rankOrder_trans : IsTrans Researcher rankOrder where
  trans p q r hpq hqr := by
    unfold rankOrder at hpq hqr ⊢
    rcases hpq with h1 | ⟨he1, hi1⟩
    · rcases hqr with h2 | ⟨he2, hi2⟩
      · exact Or.inl (h2.trans h1)
      · exact Or.inl (he2 ▸ h1)
    · rcases hqr with h2 | ⟨he2, hi2⟩
      · exact Or.inl (by rw [he1]; exact h2)
      · exact Or.inr ⟨he1.trans he2, hi1.trans hi2⟩

/-- Modelled from the spec: node selection of the assembler (§4.4),
absent from the sources — retain the researchers passing the filter and
cap the count at `maxNodes`, selecting by descending rank score with the
lower numeric id winning ties. -/
def selectNodes (f : FilterState) (rs : List Researcher) : List Researcher :=
  (List.insertionSort rankOrder (rs.filter (passesFilter f))).take f.maxNodes

/-- Modelled from the spec: edge pruning of the assembler (§4.4), absent
from the sources — drop any classified edge whose either endpoint was
filtered out. -/
def pruneEdges (nodes : List Researcher) (es : List ClassifiedEdge) : List ClassifiedEdge :=
  es.filter fun e =>
    (nodes.any fun r => r.id == e.source) && (nodes.any fun r => r.id == e.target)

/-- Clustering method, mirroring the TypeScript `ClusterData.method`
union `'regional' | 'topical' | 'collaborative'`. -/
inductive ClusterMethod where
  | regional : ClusterMethod
  | topical : ClusterMethod
  | collaborative : ClusterMethod
deriving DecidableEq, Repr

/-- Dominant research-category tag of a node (§4.4, topical clustering):
the most frequent tag of the node's category list, ties broken by the
lexical order of the tag. -/
def dominantCategory (tags : List String) : String :=
  tags.foldl
    (fun best t =>
      if tags.count t > tags.count best ∨
          (tags.count t = tags.count best ∧ t < best) then t else best)
    ""

/-- One expansion step of the reachable set over the retained edges. -/
def reachStep (es : List ClassifiedEdge) (s : List Nat) : List Nat :=
  (s ++ es.foldr
      (fun e acc =>
        if s.contains e.source || s.contains e.target then
          e.source :: e.target :: acc
        else acc)
      []).dedup

/-- Iterated expansion of the reachable set with explicit fuel. -/
def reachIter (es : List ClassifiedEdge) : Nat → List Nat → List Nat
  | 0, s => s
  | n + 1, s => reachIter es n (reachStep es s)

/-- Smallest researcher id in a node's connected component over the
retained edge set. -/
def componentMin (es : List ClassifiedEdge) (i : Nat) : Nat :=
  (reachIter es es.length [i]).foldl Nat.min i

/-- Modelled from the spec: the assembler's cluster assignment (§4.4),
absent from the sources.  Regional clustering uses the region as the
cluster id; topical clustering uses the dominant category tag;
collaborative clustering is modelled by its required deterministic,
seed-free core — labelling each node with the smallest researcher id of
its connected component over the retained edge set. -/
def clusterId (m : ClusterMethod) (es : List ClassifiedEdge) (r : Researcher) : String :=
  match m with
  | ClusterMethod.regional => r.region
  | ClusterMethod.topical => dominantCategory r.research_categories
  | ClusterMethod.collaborative => toString (componentMin es r.id)

/-- Graph density per the spec's formula (§4.4):
`edges / (n*(n-1)/2)` for `n ≥ 2`, else `0`. -/
def graphDensity (nNodes nEdges : Nat) : ℚ :=
  if 2 ≤ nNodes then (nEdges : ℚ) / (((nNodes * (nNodes - 1) : Nat) : ℚ) / 2) else 0

/-- Versioned graph snapshot, mirroring the TypeScript `GraphData`
aggregate (nodes, edges, metadata with totals and the applied filter)
together with the spec's cluster assignment and aggregate metrics. -/
structure GraphSnapshot where
  nodes : List Researcher
  edges : List ClassifiedEdge
  clusters : List (Nat × String)
  method : ClusterMethod
  density : ℚ
  num_communities : Nat
  total_nodes : Nat
  total_edges : Nat
  filters_applied : FilterState
deriving DecidableEq, Repr

/-- Modelled from the spec: the graph assembler
`assemble(researchers, classified_edges, filter)` of §4.4, absent from
the sources.  Filtering and node-cap selection, edge pruning, cluster
assignment by the selected method, and the aggregate metrics (density by
the spec's formula, community count as the number of distinct cluster
ids). -/
def assemble (rs : List Researcher) (es : List ClassifiedEdge) (f : FilterState)
    (m : ClusterMethod) : GraphSnapshot :=
  let nodes := selectNodes f rs
  let edges := pruneEdges nodes es
  let clusters := nodes.map fun r => (r.id, clusterId m edges r)
  { nodes := nodes
    edges := edges
    clusters := clusters
    method := m
    density := graphDensity nodes.length edges.length
    num_communities := ((clusters.map Prod.snd).dedup).length
    total_nodes := nodes.length
    total_edges := edges.length
    filters_applied := f }

/-- Candidate ranked 90 of spec Scenario C. -/
def cand90 : Researcher := ⟨1, "North America", 9000, 40, 60, 90, ["slam"]⟩

/-- Candidate ranked 80 of spec Scenario C. -/
def cand80 : Researcher := ⟨2, "Europe", 8000, 35, 50, 80, ["slam"]⟩

/-- Candidate ranked 70 of spec Scenario C. -/
def cand70 : Researcher := ⟨3, "Japan", 7000, 30, 45, 70, ["vision"]⟩

/-- Candidate ranked 60 of spec Scenario C. -/
def cand60 : Researcher := ⟨4, "India", 6000, 25, 40, 60, ["vision"]⟩

/-- Candidate ranked 50 of spec Scenario C. -/
def cand50 : Researcher := ⟨5, "China", 5000, 20, 35, 50, ["slam"]⟩

/-- The qualifying candidate set of spec Scenario C, deliberately out of
rank order. -/
def scenarioCRs : List Researcher := [cand70, cand90, cand50, cand80, cand60]

/-- The filter of spec Scenario C: no category or region constraint, the
frontend's default citation floor, node cap 2. -/
def scenarioCF : FilterState := ⟨[], [], 1000, 2⟩

/-- C5: every node of an assembled snapshot passes the active filter and
the node count is at most `maxNodes`; a retained node is never beaten in
the selection order (descending rank score, lower id on ties) by a
qualifying researcher that was dropped; and on spec Scenario C
(`maxNodes = 2` over qualifying candidates ranked 90, 80, 70, 60, 50)
exactly the 90- and 80-ranked researchers are kept. -/
theorem assemble_filter_selection (rs : List Researcher) (es : List ClassifiedEdge)
    (f : FilterState) (m : ClusterMethod) :
    (∀ x ∈ (assemble rs es f m).nodes, passesFilter f x = true) ∧
    (assemble rs es f m).nodes.length ≤ f.maxNodes ∧
    (∀ x ∈ (assemble rs es f m).nodes, ∀ y ∈ rs.filter (passesFilter f),
      y ∉ (assemble rs es f m).nodes → rankOrder x y) ∧
    (assemble scenarioCRs [] scenarioCF ClusterMethod.regional).nodes =
      [cand90, cand80] := by
  have hnodes : (assemble rs es f m).nodes =
      (List.insertionSort rankOrder (rs.filter (passesFilter f))).take f.maxNodes := rfl
  refine ⟨?_, ?_, ?_, by decide⟩
  · intro x hx
    rw [hnodes] at hx
    have hx' := List.mem_of_mem_take hx
    rw [List.mem_insertionSort] at hx'
    exact (List.mem_filter.mp hx').2
  · rw [hnodes, List.length_take]
    exact min_le_left _ _
  · intro x hx y hy hyn
    rw [hnodes] at hx hyn
    have hsorted : List.Sorted rankOrder
        (List.insertionSort rankOrder (rs.filter (passesFilter f))) :=
      List.sorted_insertionSort rankOrder _
    have hyl : y ∈ List.insertionSort rankOrder (rs.filter (passesFilter f)) := by
      rw [List.mem_insertionSort]; exact hy
    have hsplit :
        (List.insertionSort rankOrder (rs.filter (passesFilter f))).take f.maxNodes ++
          (List.insertionSort rankOrder (rs.filter (passesFilter f))).drop f.maxNodes =
          List.insertionSort rankOrder (rs.filter (passesFilter f)) :=
      List.take_append_drop _ _
    have hyl2 : y ∈
        (List.insertionSort rankOrder (rs.filter (passesFilter f))).take f.maxNodes ++
          (List.insertionSort rankOrder (rs.filter (passesFilter f))).drop f.maxNodes := by
      rw [hsplit]; exact hyl
    have hydrop : y ∈
        (List.insertionSort rankOrder (rs.filter (passesFilter f))).drop f.maxNodes := by
      rcases List.mem_append.mp hyl2 with h | h
      · exact absurd h hyn
      · exact h
    have hpw : List.Pairwise rankOrder
        ((List.insertionSort rankOrder (rs.filter (passesFilter f))).take f.maxNodes ++
          (List.insertionSort rankOrder (rs.filter (passesFilter f))).drop f.maxNodes) := by
      rw [hsplit]; exact hsorted
    exact (List.pairwise_append.mp hpw).2.2 x hx y hydrop

/-- Witness for C5 on spec Scenario C: the retained `cand90` passes the
filter. -/
theorem assemble_filter_selection_witness :
    cand90 ∈ (assemble scenarioCRs [] scenarioCF ClusterMethod.regional).nodes ∧
    passesFilter scenarioCF cand90 = true :=
  ⟨by decide,
    (assemble_filter_selection scenarioCRs [] scenarioCF ClusterMethod.regional).1
      cand90 (by decide)⟩

/-- C6: both endpoint ids of every classified edge of an assembled
snapshot are ids of nodes of that snapshot — edges with a filtered-out
endpoint are pruned, and no surviving edge references an id absent from
the node set. -/
theorem assemble_edge_endpoints (rs : List Researcher) (es : List ClassifiedEdge)
    (f : FilterState) (m : ClusterMethod) (e : ClassifiedEdge)
    (he : e ∈ (assemble rs es f m).edges) :
    (∃ r ∈ (assemble rs es f m).nodes, r.id = e.source) ∧
    (∃ r ∈ (assemble rs es f m).nodes, r.id = e.target) := by
  have hedges : (assemble rs es f m).edges =
      pruneEdges (assemble rs es f m).nodes es := rfl
  rw [hedges] at he
  unfold pruneEdges at he
  rw [List.mem_filter, Bool.and_eq_true] at he
  obtain ⟨-, h1, h2⟩ := he
  rw [List.any_eq_true] at h1 h2
  constructor
  · obtain ⟨r, hr, hid⟩ := h1
    exact ⟨r, hr, by simpa using hid⟩
  · obtain ⟨r, hr, hid⟩ := h2
    exact ⟨r, hr, by simpa using hid⟩

/-- A classified edge between the two retained Scenario C candidates. -/
def demoEdge : ClassifiedEdge := ⟨1, 2, 1, Direction.peer, 5⟩

/-- Witness for C6 on a snapshot that retains the edge between the two
kept nodes. -/
theorem assemble_edge_endpoints_witness :
    demoEdge ∈ (assemble scenarioCRs [demoEdge] scenarioCF ClusterMethod.regional).edges ∧
    ((∃ r ∈ (assemble scenarioCRs [demoEdge] scenarioCF ClusterMethod.regional).nodes,
        r.id = demoEdge.source) ∧
      (∃ r ∈ (assemble scenarioCRs [demoEdge] scenarioCF ClusterMethod.regional).nodes,
        r.id = demoEdge.target)) :=
  have he : demoEdge ∈
      (assemble scenarioCRs [demoEdge] scenarioCF ClusterMethod.regional).edges := by
    decide
  ⟨he, assemble_edge_endpoints scenarioCRs [demoEdge] scenarioCF
    ClusterMethod.regional demoEdge he⟩

/-- C7: assembly is deterministic — two runs on equal researcher lists,
equal classified-edge lists, equal filter and equal clustering method
produce snapshots with equal node set, edge set, cluster assignment and
aggregate metrics (indeed equal snapshots). -/
theorem assemble_deterministic (rs1 rs2 : List Researcher)
    (es1 es2 : List ClassifiedEdge) (f1 f2 : FilterState) (m1 m2 : ClusterMethod)
    (hr : rs1 = rs2) (he : es1 = es2) (hf : f1 = f2) (hm : m1 = m2) :
    (assemble rs1 es1 f1 m1).nodes = (assemble rs2 es2 f2 m2).nodes ∧
    (assemble rs1 es1 f1 m1).edges = (assemble rs2 es2 f2 m2).edges ∧
    (assemble rs1 es1 f1 m1).clusters = (assemble rs2 es2 f2 m2).clusters ∧
    (assemble rs1 es1 f1 m1).density = (assemble rs2 es2 f2 m2).density ∧
    (assemble rs1 es1 f1 m1).num_communities = (assemble rs2 es2 f2 m2).num_communities ∧
    assemble rs1 es1 f1 m1 = assemble rs2 es2 f2 m2 := by
  subst hr; subst he; subst hf; subst hm
  exact ⟨rfl, rfl, rfl, rfl, rfl, rfl⟩

/-- Witness for C7 at a concrete pair of identical runs. -/
theorem assemble_deterministic_witness :
    scenarioCRs = scenarioCRs ∧
    (assemble scenarioCRs [demoEdge] scenarioCF ClusterMethod.regional).nodes =
      (assemble scenarioCRs [demoEdge] scenarioCF ClusterMethod.regional).nodes :=
  ⟨rfl,
    (assemble_deterministic scenarioCRs scenarioCRs [demoEdge] [demoEdge]
      scenarioCF scenarioCF ClusterMethod.regional ClusterMethod.regional
      rfl rfl rfl rfl).1⟩

/-- Build-job status, mirroring the spec's §4.5 state machine
`pending -> running -> (completed | failed | cancelled)` (the TypeScript
`SearchProgress.status` union spells the first two states `'started'` and
`'in_progress'`). -/
inductive JobStatus where
  | pending : JobStatus
  | running : JobStatus
  | completed : JobStatus
  | failed : JobStatus
  | cancelled : JobStatus
deriving DecidableEq, Repr

/-- Modelled from the spec: the orchestrator's allowed status
transitions (§4.5), absent from the sources — a pending job starts
running, and a running job finishes completed, failed or cancelled. -/
def canStep : JobStatus → JobStatus → Bool
  | JobStatus.pending, JobStatus.running => true
  | JobStatus.running, JobStatus.completed => true
  | JobStatus.running, JobStatus.failed => true
  | JobStatus.running, JobStatus.cancelled => true
  | _, _ => false

/-- Terminal statuses of a build job (§4.5). -/
def isTerminal : JobStatus → Bool
  | JobStatus.completed => true
  | JobStatus.failed => true
  | JobStatus.cancelled => true
  | _ => false

/-- Build job record, mirroring the spec's §3 `BuildJob`: job id, input
filter, status, progress fraction, current step label, result count so
far, optional snapshot reference and optional failure reason. -/
structure BuildJob where
  job_id : Nat
  filter : FilterState
  status : JobStatus
  progress : ℚ
  current_step : String
  results_found : Nat
  snapshot : Option GraphSnapshot
  failure_reason : Option String
deriving DecidableEq, Repr

/-- Modelled from the spec: job creation on submission (§3, §6), absent
from the sources — a freshly submitted job is pending with zero
progress and no result. -/
def submitJob (jid : Nat) (f : FilterState) : BuildJob :=
  ⟨jid, f, JobStatus.pending, 0, "pending", 0, none, none⟩

/-- C8: the build-job status state machine — a submitted job is pending;
every allowed transition is either pending→running or running→terminal
(completed, failed or cancelled); and no transition leaves a terminal
status. -/
theorem job_state_machine (jid : Nat) (f : FilterState) :
    (submitJob jid f).status = JobStatus.pending ∧
    (∀ s t, canStep s t = true →
      (s = JobStatus.pending ∧ t = JobStatus.running) ∨
      (s = JobStatus.running ∧
        (t = JobStatus.completed ∨ t = JobStatus.failed ∨ t = JobStatus.cancelled))) ∧
    (∀ s, isTerminal s = true → ∀ t, canStep s t = false) := by
  refine ⟨rfl, ?_, ?_⟩
  · intro s t h
    cases s <;> cases t <;> simp_all [canStep]
  · intro s h t
    cases s <;> cases t <;> simp_all [canStep, isTerminal]

/-- Witness for C8: a completed job is terminal and cannot step back to
running. -/
theorem job_state_machine_witness :
    isTerminal JobStatus.completed = true ∧
    canStep JobStatus.completed JobStatus.running = false :=
  ⟨rfl,
    (job_state_machine 1 scenarioCF).2.2 JobStatus.completed rfl JobStatus.running⟩

/-- Run-time environment of one pipeline execution: whether cancellation
has been requested by the time of checkpoint `k`, and whether phase `k`
fails, for the three phases extraction (0), classification (1) and
assembly (2). -/
structure JobEnv where
  cancelRequested : Nat → Bool
  phaseFails : Nat → Bool

/-- Modelled from the spec: the terminal status of one pipeline run
(§4.5), absent from the sources.  The cancellation flag is checked
cooperatively at the checkpoint before each phase; a requested
cancellation yields `cancelled` at that checkpoint, a phase failure
yields `failed`, otherwise the run completes. -/
def pipelineOutcome (env : JobEnv) : JobStatus :=
  if env.cancelRequested 0 then JobStatus.cancelled
  else if env.phaseFails 0 then JobStatus.failed
  else if env.cancelRequested 1 then JobStatus.cancelled
  else if env.phaseFails 1 then JobStatus.failed
  else if env.cancelRequested 2 then JobStatus.cancelled
  else if env.phaseFails 2 then JobStatus.failed
  else JobStatus.completed

/-- Cache / result sink for one filter key, holding the latest committed
snapshot (§6). -/
structure ResultStore where
  latest : Option GraphSnapshot
deriving DecidableEq, Repr

/-- Publish a fully-assembled snapshot to the store (§6). -/
def publish (snap : GraphSnapshot) (_st : ResultStore) : ResultStore :=
  ⟨some snap⟩

/-- Latest committed snapshot for the filter key (§6). -/
def get_latest (st : ResultStore) : Option GraphSnapshot :=
  st.latest

/-- Modelled from the spec: one orchestrated job run against the result
store (§4.5, §6), absent from the sources — only a run whose outcome is
`completed` publishes the assembled snapshot; a cancelled or failed run
leaves the store untouched. -/
def runJob (env : JobEnv) (rs : List Researcher) (es : List ClassifiedEdge)
    (f : FilterState) (m : ClusterMethod) (st : ResultStore) :
    JobStatus × ResultStore :=
  match pipelineOutcome env with
  | JobStatus.completed => (JobStatus.completed, publish (assemble rs es f m) st)
  | s => (s, st)

/-- C9: a job that terminates cancelled or failed publishes nothing —
`get_latest` afterwards still answers the prior committed snapshot (or
none, if there was none). -/
theorem runJob_no_partial_publish (env : JobEnv) (rs : List Researcher)
    (es : List ClassifiedEdge) (f : FilterState) (m : ClusterMethod)
    (st : ResultStore)
    (h : (runJob env rs es f m st).1 = JobStatus.cancelled ∨
      (runJob env rs es f m st).1 = JobStatus.failed) :
    get_latest (runJob env rs es f m st).2 = get_latest st := by
  unfold runJob at h ⊢
  cases hpo : pipelineOutcome env
  · rfl
  · rfl
  · rw [hpo] at h
    rcases h with h | h <;> exact JobStatus.noConfusion h
  · rfl
  · rfl

/-- The environment of spec Scenario D: cancellation is requested after
extraction, before assembly completes. -/
def scenarioDEnv : JobEnv := ⟨fun k => decide (1 ≤ k), fun _ => false⟩

/-- Witness for C9 at spec Scenario D: the job ends cancelled on a
first run and `get_latest` still answers none. -/
theorem runJob_no_partial_publish_witness :
    ((runJob scenarioDEnv scenarioCRs [demoEdge] scenarioCF ClusterMethod.regional
        ⟨none⟩).1 = JobStatus.cancelled ∨
      (runJob scenarioDEnv scenarioCRs [demoEdge] scenarioCF ClusterMethod.regional
        ⟨none⟩).1 = JobStatus.failed) ∧
    get_latest (runJob scenarioDEnv scenarioCRs [demoEdge] scenarioCF
      ClusterMethod.regional ⟨none⟩).2 = get_latest ⟨none⟩ :=
  have h : (runJob scenarioDEnv scenarioCRs [demoEdge] scenarioCF
      ClusterMethod.regional ⟨none⟩).1 = JobStatus.cancelled := rfl
  ⟨Or.inl h,
    runJob_no_partial_publish scenarioDEnv scenarioCRs [demoEdge] scenarioCF
      ClusterMethod.regional ⟨none⟩ (Or.inl h)⟩

/-- The fixed region enumeration of the frontend, mirroring the keys of
the TypeScript `RegionColors` interface (`types/index.ts`, lines
245–255). -/
def regionEnum : List String :=
  ["North America", "Europe", "China", "Japan", "South Korea",
   "Singapore", "Australia", "India", "Other"]

/-- Countries mapped to the North America region. -/
def northAmericaCountries : List String :=
  ["United States", "USA", "Canada", "Mexico"]

/-- Countries mapped to the Europe region. -/
def europeCountries : List String :=
  ["United Kingdom", "Germany", "France", "Switzerland", "Italy",
   "Spain", "Netherlands", "Sweden"]

/-- Modelled from the spec: the location mapper resolving a profile's
country to its region (§3 invariant; backend `location_mapper.py` is
absent from the sources) — a recognized country maps to its region from
the frontend's `RegionColors` enumeration, everything else (including a
missing country) maps to `Other`. -/
def resolveRegion (country : Option String) : String :=
  match country with
  | none => "Other"
  | some c =>
    if northAmericaCountries.contains c then "North America"
    else if europeCountries.contains c then "Europe"
    else if c = "China" then "China"
    else if c = "Japan" then "Japan"
    else if c = "South Korea" then "South Korea"
    else if c = "Singapore" then "Singapore"
    else if c = "Australia" then "Australia"
    else if c = "India" then "India"
    else "Other"

/-- Modelled from the spec: profile construction by the data-collection
side (§3), absent from the sources — the stored region attribute is the
resolved region of the profile's country. -/
def mkResearcher (id : Nat) (country : Option String)
    (citations h_index i10_index : Nat) (rank_score : ℚ)
    (research_categories : List String) : Researcher :=
  ⟨id, resolveRegion country, citations, h_index, i10_index, rank_score,
    research_categories⟩

/-- C10: the resolved region attribute of every constructed researcher
profile is one of the fixed enumerated regions (North America, Europe,
China, Japan, South Korea, Singapore, Australia, India) or `Other`. -/
theorem mkResearcher_region_enum (id : Nat) (country : Option String)
    (citations h_index i10_index : Nat) (rank_score : ℚ)
    (research_categories : List String) :
    (mkResearcher id country citations h_index i10_index rank_score
      research_categories).region ∈ regionEnum := by
  show resolveRegion country ∈ regionEnum
  cases country with
  | none => simp [resolveRegion, regionEnum]
  | some c =>
    simp only [resolveRegion]
    split_ifs <;> simp [regionEnum]

end AcademiaMap
